import Mathlib

/-!
Shallow embedding of the aqua-insight-voice chat component
(`src/components/GroundwaterChat.tsx` together with `src/pages/Index.tsx`).

The component keeps React state `messages`, `inputValue`, `isListening`,
`isProcessing`, `userLocation`, `locationPermission`; the page `Index` keeps
the `language` state and passes it down.  We embed that state as `AppState`
and each event handler of the component as a state-transition function.
Message ids come from `Date.now().toString()`; we model the millisecond
clock as an explicit `now : Nat` argument and render it in decimal with
`natToString`.
-/

namespace AquaInsight

/-- The `language` prop: `en | hi`. -/
inductive Language
  | en
  | hi
deriving DecidableEq, Repr

/-- The `locationPermission` state: `pending | granted | denied`. -/
inductive PermissionState
  | pending
  | granted
  | denied
deriving DecidableEq, Repr

/-- `LocationData` (only the fields the handlers ever write). -/
structure LocationData where
  latitude : Int
  longitude : Int
deriving DecidableEq, Repr

/-- The untyped `data` payload: the only shape the code ever stores is
`{ isPrediction: true }`. -/
structure MsgData where
  isPrediction : Bool
deriving DecidableEq, Repr

/-- The `Message` record; absent optional fields are embedded as the
defaults `none` / `false`. -/
structure Message where
  id : String
  text : String
  isUser : Bool
  timestamp : Nat
  data : Option MsgData := none
  showChart : Bool := false
  showComparison : Bool := false
  suggestions : Option (List String) := none
deriving DecidableEq, Repr

/-- Decimal rendering of a natural number, as produced by the JS
`Date.now().toString()` that the component uses for message ids. -/
def natToString (n : Nat) : String :=
  if n = 0 then "0" else String.mk (((Nat.digits 10 n).reverse).map Nat.digitChar)

/-- Character-list prefix test (used to embed JS `String.prototype.includes`). -/
def listPrefixOf : List Char → List Char → Bool
  | [], _ => true
  | _ :: _, [] => false
  | a :: as, b :: bs => a == b && listPrefixOf as bs

/-- Does `pat` occur as a contiguous substring of the character list? -/
def listContainsSub (pat : List Char) : List Char → Bool
  | [] => listPrefixOf pat []
  | c :: t => listPrefixOf pat (c :: t) || listContainsSub pat t

/-- JS `haystack.includes(pat)`, embedded on the characters of the strings. -/
def strIncludes (s pat : String) : Bool :=
  listContainsSub pat.data s.data

/-- JS `String.prototype.toLowerCase` restricted to what matters for the
keyword tests: ASCII letters are lowered, all other characters (including
the Devanagari keywords) are unchanged. -/
def jsToLower (s : String) : String :=
  String.mk (s.data.map Char.toLower)

/-- JS `String.prototype.trim`: strip leading and trailing whitespace. -/
def jsTrim (s : String) : String :=
  String.mk (((s.data.dropWhile Char.isWhitespace).reverse.dropWhile
    Char.isWhitespace).reverse)

/-- A `generateResponse` call pending behind the simulated 1s latency.  The
JS closure captures `language` and `userLocation` from the render in which
`handleSendMessage` ran, so the pending record stores them. -/
structure PendingCall where
  query : String
  language : Language
  userLocation : Option LocationData
deriving DecidableEq, Repr

/-- The combined state of `Index` (the `language` hook) and
`GroundwaterChat` (all its `useState` hooks).  `pending` holds the
`generateResponse` calls whose `await` has not yet resumed. -/
structure AppState where
  messages : List Message
  inputValue : String
  isListening : Bool
  isProcessing : Bool
  userLocation : Option LocationData
  locationPermission : PermissionState
  language : Language
  pending : List PendingCall
deriving DecidableEq, Repr

/-- The initial hook values: empty transcript, empty input, no flags,
permission pending, language starts as `en` in `Index`. -/
def initialState : AppState :=
  { messages := []
    inputValue := ""
    isListening := false
    isProcessing := false
    userLocation := none
    locationPermission := PermissionState.pending
    language := Language.en
    pending := [] }

/-- `generateResponse` from `GroundwaterChat.tsx` (lines 270-357), minus the
`setTimeout` latency: the pure function from the input text, the captured
`language` and `userLocation`, and the resolution instant to the assistant
`Message`. -/
def generateResponse (userMessage : String) (language : Language)
    (userLocation : Option LocationData) (now : Nat) : Message :=
  if strIncludes (jsToLower userMessage) "quality"
      || strIncludes (jsToLower userMessage) "गुणवत्ता" then
    { id := natToString now
      text :=
        if language = Language.hi then
          (if userLocation.isSome then "आपके क्षेत्र" else "इस क्षेत्र")
            ++ " के लिए भूजल गुणवत्ता डेटा। डेटा से पता चलता है कि पानी की गुणवत्ता अच्छी है।"
        else
          "Groundwater quality data for "
            ++ (if userLocation.isSome then "your area" else "this area")
            ++ ". The data shows good water quality with acceptable TDS levels."
      isUser := false
      timestamp := now
      showChart := true
      suggestions := some
        (if language = Language.hi then
          ["पानी का स्तर ट्रेंड दिखाएं", "अन्य शहरों से तुलना करें", "भविष्य की भविष्यवाणी"]
        else
          ["Show water level trends", "Compare with other cities", "Future predictions"]) }
  else if strIncludes (jsToLower userMessage) "compare"
      || strIncludes (jsToLower userMessage) "तुलना" then
    { id := natToString now
      text :=
        if language = Language.hi then
          "यहाँ दो स्थानों के बीच भूजल की तुलना है।"
        else
          "Here\x27s a comparison of groundwater data between the two locations."
      isUser := false
      timestamp := now
      showComparison := true
      suggestions := some
        (if language = Language.hi then
          ["और शहर जोड़ें", "विस्तृत रिपोर्ट", "डाउनलोड डेटा"]
        else
          ["Add more cities", "Detailed report", "Download data"]) }
  else if strIncludes (jsToLower userMessage) "predict"
      || strIncludes (jsToLower userMessage) "भविष्यवाणी" then
    { id := natToString now
      text :=
        if language = Language.hi then
          "अगले 5 साल के लिए भूजल स्तर की भविष्यवाणी दिखाई गई है।"
        else
          "Here\x27s the 5-year prediction for groundwater levels in your area."
      isUser := false
      timestamp := now
      showChart := true
      data := some { isPrediction := true }
      suggestions := some
        (if language = Language.hi then
          ["जोखिम विश्लेषण", "सुझाव दें", "अलार्ट सेट करें"]
        else
          ["Risk analysis", "Get recommendations", "Set alerts"]) }
  else if strIncludes (jsToLower userMessage) "level"
      || strIncludes (jsToLower userMessage) "स्तर" then
    { id := natToString now
      text :=
        if language = Language.hi then
          (if userLocation.isSome then "आपके क्षेत्र" else "इस क्षेत्र")
            ++ " में वर्तमान भूजल स्तर सामान्य है।"
        else
          "Current groundwater level in "
            ++ (if userLocation.isSome then "your area" else "this area")
            ++ " is normal."
      isUser := false
      timestamp := now
      showChart := true
      suggestions := some
        (if language = Language.hi then
          ["ऐतिहासिक डेटा", "मासिक ट्रेंड", "अन्य स्थान देखें"]
        else
          ["Historical data", "Monthly trends", "Check other locations"]) }
  else
    { id := natToString now
      text :=
        if language = Language.hi then
          "मैं आपकी मदद करने के लिए यहाँ हूँ। कृपया भूजल गुणवत्ता, तुलना या भविष्यवाणी के बारे में पूछें।"
        else
          "I\x27m here to help you with groundwater information. Please ask about water quality, comparisons, or predictions."
      isUser := false
      timestamp := now
      suggestions := some
        (if language = Language.hi then
          ["पानी की गुणवत्ता जांचें", "शहरों की तुलना", "भविष्य की रिपोर्ट"]
        else
          ["Check water quality", "Compare cities", "Future reports"]) }

/-- The five intents reachable through the keyword chain of
`generateResponse`, in source order. -/
inductive Intent
  | quality
  | comparison
  | prediction
  | level
  | helpDefault
deriving DecidableEq, Repr

/-- The keyword chain of `generateResponse` on its own: which branch fires
for a given input text. -/
def classifyIntent (userMessage : String) : Intent :=
  if strIncludes (jsToLower userMessage) "quality"
      || strIncludes (jsToLower userMessage) "गुणवत्ता" then Intent.quality
  else if strIncludes (jsToLower userMessage) "compare"
      || strIncludes (jsToLower userMessage) "तुलना" then Intent.comparison
  else if strIncludes (jsToLower userMessage) "predict"
      || strIncludes (jsToLower userMessage) "भविष्यवाणी" then Intent.prediction
  else if strIncludes (jsToLower userMessage) "level"
      || strIncludes (jsToLower userMessage) "स्तर" then Intent.level
  else Intent.helpDefault

example : classifyIntent "Show groundwater quality in Delhi" = Intent.quality := by decide
example : classifyIntent "Compare water levels between Mumbai and Pune" = Intent.comparison := by
  decide
example : classifyIntent "Predict water levels for next 5 years in Bangalore" =
    Intent.prediction := by decide
example : classifyIntent "hello there" = Intent.helpDefault := by decide
example : jsTrim "  hi  " = "hi" := by decide

/-- The user `Message` built at the top of `handleSendMessage`
(lines 362-367): id and timestamp from the clock, text is the raw
(untrimmed) `inputValue`. -/
def userMessageOf (text : String) (now : Nat) : Message :=
  { id := natToString now
    text := text
    isUser := true
    timestamp := now }

/-- The synchronous part of `handleSendMessage` (lines 359-373): guard on
`!inputValue.trim()`, append the user message, clear the input, raise
`isProcessing`, and start a `generateResponse` call that captures the
current `inputValue`, `language` and `userLocation`. -/
def handleSendMessageSync (s : AppState) (now : Nat) : AppState :=
  if jsTrim s.inputValue = "" then s
  else
    { s with
      messages := s.messages ++ [userMessageOf s.inputValue now]
      inputValue := ""
      isProcessing := true
      pending := s.pending ++ [⟨s.inputValue, s.language, s.userLocation⟩] }

/-- The continuation of `handleSendMessage` after `await generateResponse`
(lines 373-375): append the response message and clear `isProcessing`.
A no-op when no call is pending. -/
def handleSendMessageResume (s : AppState) (now : Nat) : AppState :=
  match s.pending with
  | [] => s
  | call :: rest =>
    { s with
      messages := s.messages ++
        [generateResponse call.query call.language call.userLocation now]
      isProcessing := false
      pending := rest }

/-- The localized error text chosen by the `switch (event.error)` in the
speech-recognition `onerror` handler (lines 117-133). -/
def speechErrorText (language : Language) (error : String) : String :=
  if error = "not-allowed" then
    if language = Language.hi then "माइक्रोफोन की अनुमति दें"
    else "Please allow microphone access"
  else if error = "no-speech" then
    if language = Language.hi then "कोई आवाज नहीं सुनी गई"
    else "No speech detected"
  else
    if language = Language.hi then "वॉइस रिकॉग्निशन में समस्या"
    else "Voice recognition error"

/-- The speech-recognition `onerror` handler (lines 112-143): drop the
listening flag and append one localized assistant message. -/
def onSpeechError (s : AppState) (error : String) (now : Nat) : AppState :=
  { s with
    isListening := false
    messages := s.messages ++
      [{ id := natToString now
         text := speechErrorText s.language error
         isUser := false
         timestamp := now }] }

/-- The greeting message pushed by the geolocation success callback
(lines 185-197). -/
def welcomeMessage (language : Language) (now : Nat) : Message :=
  { id := natToString now
    text :=
      if language = Language.hi then
        "आपका स्थान मिल गया! अब मैं आपके क्षेत्र के लिए भूजल की जानकारी प्रदान कर सकता हूं।"
      else
        "Location found! I can now provide groundwater information for your area."
    isUser := false
    timestamp := now
    suggestions := some
      (if language = Language.hi then
        ["मेरे क्षेत्र में पानी की गुणवत्ता कैसी है?", "पानी का स्तर दिखाएं", "5 साल की भविष्यवाणी"]
      else
        ["How is water quality in my area?", "Show water levels", "5-year prediction"]) }

/-- The fallback message pushed by the geolocation error callback
(lines 202-214). -/
def geoFallbackMessage (language : Language) (now : Nat) : Message :=
  { id := natToString now
    text :=
      if language = Language.hi then
        "स्थान की अनुमति नहीं मिली। आप अभी भी किसी भी स्थान के बारे में पूछ सकते हैं।"
      else
        "Location permission denied. You can still ask about any location."
    isUser := false
    timestamp := now
    suggestions := some
      (if language = Language.hi then
        ["दिल्ली में पानी की गुणवत्ता", "मुंबई और पुणे की तुलना", "बैंगलोर का डेटा"]
      else
        ["Water quality in Delhi", "Compare Mumbai and Pune", "Bangalore data"]) }

/-- Which way the one-shot geolocation request resolves: the
`navigator.geolocation` capability is absent, the success callback fires
with coordinates, or the error callback fires. -/
inductive GeoOutcome
  | unavailable
  | success (lat lon : Int)
  | failure
deriving DecidableEq, Repr

/-- `requestLocationPermission` (lines 169-218) together with whichever of
its callbacks the platform invokes.  Note the capability-absent branch
(lines 170-173) only sets `locationPermission` and returns: it pushes no
message.  Both callbacks *replace* the message list (`setMessages([...])`). -/
def requestLocationPermission (s : AppState) (outcome : GeoOutcome) (now : Nat) :
    AppState :=
  match outcome with
  | GeoOutcome.unavailable =>
    { s with locationPermission := PermissionState.denied }
  | GeoOutcome.success lat lon =>
    { s with
      userLocation := some { latitude := lat, longitude := lon }
      locationPermission := PermissionState.granted
      messages := [welcomeMessage s.language now] }
  | GeoOutcome.failure =>
    { s with
      locationPermission := PermissionState.denied
      messages := [geoFallbackMessage s.language now] }

/-- The environment `startListening` probes: whether `recognitionRef.current`
was ever set up, whether the page protocol is `https:`,
whether the hostname is `localhost`, and whether the underlying
`recognition.start()` call throws synchronously. -/
structure ListenEnv where
  hasRecognition : Bool
  protocolIsHttps : Bool
  hostnameIsLocalhost : Bool
  startThrows : Bool
deriving DecidableEq, Repr

/-- The "not available" message of `startListening` (lines 225-232). -/
def micNotAvailableMessage (language : Language) (now : Nat) : Message :=
  { id := natToString now
    text :=
      if language = Language.hi then "वॉइस रिकॉग्निशन उपलब्ध नहीं है"
      else "Voice recognition not available"
    isUser := false
    timestamp := now }

/-- The "HTTPS required" message of `startListening` (lines 240-247). -/
def httpsRequiredMessage (language : Language) (now : Nat) : Message :=
  { id := natToString now
    text :=
      if language = Language.hi then "HTTPS कनेक्शन की आवश्यकता"
      else "HTTPS connection required for voice"
    isUser := false
    timestamp := now }

/-- The catch-block message of `startListening` (lines 258-265). -/
def startFailedMessage (language : Language) (now : Nat) : Message :=
  { id := natToString now
    text :=
      if language = Language.hi then "वॉइस रिकॉग्निशन शुरू नहीं हो सका"
      else "Could not start voice recognition"
    isUser := false
    timestamp := now }

/-- `startListening` (lines 220-268).  The second component records whether
a recognition session was actually started; every exception of the
underlying `start()` call is absorbed by the `try/catch`. -/
def startListening (s : AppState) (env : ListenEnv) (now : Nat) :
    AppState × Bool :=
  if !env.hasRecognition then
    ({ s with messages := s.messages ++ [micNotAvailableMessage s.language now] },
      false)
  else if !env.protocolIsHttps && !env.hostnameIsLocalhost then
    ({ s with messages := s.messages ++ [httpsRequiredMessage s.language now] },
      false)
  else if env.startThrows then
    ({ s with
        isListening := false
        messages := s.messages ++ [startFailedMessage s.language now] },
      false)
  else
    (s, true)

/-- One event-loop task of the app: each constructor is one handler
invocation, tagged with the millisecond clock value `Date.now()` at which it
runs. -/
inductive Event
  | submit (now : Nat)
  | resolve (now : Nat)
  | geo (now : Nat) (outcome : GeoOutcome)
  | speechErrorEvt (now : Nat) (error : String)
  | speechResult (now : Nat) (transcript : String)
  | speechStart (now : Nat)
  | speechEnd (now : Nat)
  | listen (now : Nat) (env : ListenEnv)
  | typeInput (now : Nat) (text : String)
  | switchLanguage (now : Nat) (lang : Language)
deriving DecidableEq, Repr

/-- The clock value at which an event runs. -/
def Event.time : Event → Nat
  | Event.submit n => n
  | Event.resolve n => n
  | Event.geo n _ => n
  | Event.speechErrorEvt n _ => n
  | Event.speechResult n _ => n
  | Event.speechStart n => n
  | Event.speechEnd n => n
  | Event.listen n _ => n
  | Event.typeInput n _ => n
  | Event.switchLanguage n _ => n

/-- Dispatch one event to the corresponding handler.  `speechResult` is the
`onresult` callback (lines 104-110), `speechStart` the `onstart` callback,
`speechEnd` the `onend` callback, `typeInput` the input `onChange` /
suggestion-chip click, and `switchLanguage` the language-toggle button
(lines 404-412, backed by `setLanguage` in `Index.tsx`). -/
def step (s : AppState) (e : Event) : AppState :=
  match e with
  | Event.submit now => handleSendMessageSync s now
  | Event.resolve now => handleSendMessageResume s now
  | Event.geo now outcome => requestLocationPermission s outcome now
  | Event.speechErrorEvt now error => onSpeechError s error now
  | Event.speechResult _ transcript =>
    { s with inputValue := transcript, isListening := false }
  | Event.speechStart _ => { s with isListening := true }
  | Event.speechEnd _ => { s with isListening := false }
  | Event.listen now env => (startListening s env now).1
  | Event.typeInput _ text => { s with inputValue := text }
  | Event.switchLanguage _ lang => { s with language := lang }

/-- Run a sequence of event-loop tasks from the mount state. -/
def runEvents (evs : List Event) : AppState :=
  evs.foldl step initialState

/-! ### Injectivity of the decimal id rendering -/

theorem digitChar_injOn :
    ∀ a, a < 10 → ∀ b, b < 10 → Nat.digitChar a = Nat.digitChar b → a = b := by
  decide

theorem map_digitChar_inj : ∀ l₁ l₂ : List Nat, (∀ x ∈ l₁, x < 10) → (∀ x ∈ l₂, x < 10) →
    l₁.map Nat.digitChar = l₂.map Nat.digitChar → l₁ = l₂ := by
  intro l₁
  induction l₁ with
  | nil => intro l₂ _ _ h; cases l₂ <;> simp_all
  | cons a t ih =>
    intro l₂ h1 h2 h
    cases l₂ with
    | nil => simp_all
    | cons b t₂ =>
      simp only [List.map_cons, List.cons.injEq] at h
      have hab : a = b :=
        digitChar_injOn a (h1 a (by simp)) b (h2 b (by simp)) h.1
      subst hab
      have ht : t = t₂ :=
        ih t₂ (fun x hx => h1 x (by simp [hx])) (fun x hx => h2 x (by simp [hx])) h.2
      rw [ht]

theorem digits_bound (n : Nat) : ∀ x ∈ (Nat.digits 10 n).reverse, x < 10 := by
  intro x hx
  exact Nat.digits_lt_base (by norm_num) (List.mem_reverse.1 hx)

/-- Two distinct clock values render to distinct message ids. -/
theorem natToString_injective : Function.Injective natToString := by
  intro a b h
  unfold natToString at h
  by_cases ha : a = 0 <;> by_cases hb : b = 0
  · rw [ha, hb]
  · exfalso
    rw [if_pos ha, if_neg hb] at h
    have h2 : ("0" : String).data = ((Nat.digits 10 b).reverse).map Nat.digitChar := by
      rw [h]
    have h3 : ([0] : List Nat).map Nat.digitChar =
        ((Nat.digits 10 b).reverse).map Nat.digitChar := h2
    have h4 := map_digitChar_inj [0] ((Nat.digits 10 b).reverse) (by decide)
      (digits_bound b) h3
    have h5 : Nat.digits 10 b = [0] := by
      have := congrArg List.reverse h4
      simpa using this.symm
    have h6 := Nat.ofDigits_digits 10 b
    rw [h5] at h6
    simp [Nat.ofDigits] at h6
    exact hb h6.symm
  · exfalso
    rw [if_neg ha, if_pos hb] at h
    have h2 : ("0" : String).data = ((Nat.digits 10 a).reverse).map Nat.digitChar := by
      rw [← h]
    have h3 : ([0] : List Nat).map Nat.digitChar =
        ((Nat.digits 10 a).reverse).map Nat.digitChar := h2
    have h4 := map_digitChar_inj [0] ((Nat.digits 10 a).reverse) (by decide)
      (digits_bound a) h3
    have h5 : Nat.digits 10 a = [0] := by
      have := congrArg List.reverse h4
      simpa using this.symm
    have h6 := Nat.ofDigits_digits 10 a
    rw [h5] at h6
    simp [Nat.ofDigits] at h6
    exact ha h6.symm
  · rw [if_neg ha, if_neg hb] at h
    have h2 : ((Nat.digits 10 a).reverse).map Nat.digitChar =
        ((Nat.digits 10 b).reverse).map Nat.digitChar := by
      have := congrArg String.data h
      simpa using this
    have h3 := map_digitChar_inj _ _ (digits_bound a) (digits_bound b) h2
    have h4 : Nat.digits 10 a = Nat.digits 10 b := by
      have := congrArg List.reverse h3
      simpa using this
    exact Nat.digits.injective 10 h4

/-! ### The id/timestamp invariant of the message store -/

/-- Every stored message was stamped before `bound`, its id is the decimal
rendering of its creation instant, and no two stored messages share a
creation instant. -/
def msgsOk (ms : List Message) (bound : Nat) : Prop :=
  (∀ m ∈ ms, m.timestamp < bound ∧ m.id = natToString m.timestamp) ∧
  List.Pairwise (fun a b => a.timestamp ≠ b.timestamp) ms

theorem msgsOk_mono {ms : List Message} {t t' : Nat} (h : msgsOk ms t) (htt : t ≤ t') :
    msgsOk ms t' :=
  ⟨fun m hm => ⟨lt_of_lt_of_le (h.1 m hm).1 htt, (h.1 m hm).2⟩, h.2⟩

theorem msgsOk_append {ms : List Message} {t n : Nat} {m : Message}
    (h : msgsOk ms t) (htn : t ≤ n)
    (hts : m.timestamp = n) (hid : m.id = natToString n) :
    msgsOk (ms ++ [m]) (n + 1) := by
  constructor
  · intro x hx
    rcases List.mem_append.1 hx with hx | hx
    · have hx' := h.1 x hx
      exact ⟨lt_of_lt_of_le hx'.1 (le_trans htn (Nat.le_succ n)), hx'.2⟩
    · have hxm : x = m := List.mem_singleton.1 hx
      subst hxm
      exact ⟨by omega, by rw [hid, hts]⟩
  · rw [List.pairwise_append]
    refine ⟨h.2, List.pairwise_singleton _ _, ?_⟩
    intro a ha b hb
    have hbm : b = m := List.mem_singleton.1 hb
    subst hbm
    have hlt := (h.1 a ha).1
    omega

theorem msgsOk_singleton {n : Nat} {m : Message}
    (hts : m.timestamp = n) (hid : m.id = natToString n) :
    msgsOk [m] (n + 1) := by
  constructor
  · intro x hx
    have hxm : x = m := List.mem_singleton.1 hx
    subst hxm
    exact ⟨by omega, by rw [hid, hts]⟩
  · exact List.pairwise_singleton _ _

/-- `generateResponse` always stamps the response with the resolution
instant and derives the id from it, whatever branch fires. -/
theorem generateResponse_id (q : String) (l : Language) (loc : Option LocationData)
    (n : Nat) :
    (generateResponse q l loc n).id = natToString n ∧
    (generateResponse q l loc n).timestamp = n := by
  unfold generateResponse
  split_ifs <;> exact ⟨rfl, rfl⟩

/-- Each event-loop task preserves the id/timestamp invariant, pushing the
bound past the task's own clock value. -/
theorem step_msgsOk {s : AppState} {e : Event} {t : Nat}
    (h : msgsOk s.messages t) (hte : t ≤ e.time) :
    msgsOk (step s e).messages (e.time + 1) := by
  cases e with
  | submit now =>
    simp only [step, Event.time] at *
    unfold handleSendMessageSync
    split
    · exact msgsOk_mono h (by omega)
    · exact msgsOk_append h hte rfl rfl
  | resolve now =>
    simp only [step, Event.time] at *
    unfold handleSendMessageResume
    split
    · exact msgsOk_mono h (by omega)
    · exact msgsOk_append h hte (generateResponse_id _ _ _ _).2
        (generateResponse_id _ _ _ _).1
  | geo now outcome =>
    simp only [step, Event.time] at *
    cases outcome with
    | unavailable => exact msgsOk_mono h (by omega)
    | success lat lon => exact msgsOk_singleton rfl rfl
    | failure => exact msgsOk_singleton rfl rfl
  | speechErrorEvt now error =>
    simp only [step, Event.time] at *
    exact msgsOk_append h hte rfl rfl
  | speechResult now transcript =>
    simp only [step, Event.time] at *
    exact msgsOk_mono h (Nat.le_succ_of_le hte)
  | speechStart now =>
    simp only [step, Event.time] at *
    exact msgsOk_mono h (Nat.le_succ_of_le hte)
  | speechEnd now =>
    simp only [step, Event.time] at *
    exact msgsOk_mono h (Nat.le_succ_of_le hte)
  | listen now env =>
    simp only [step, Event.time] at *
    unfold startListening
    split_ifs
    · exact msgsOk_append h hte rfl rfl
    · exact msgsOk_append h hte rfl rfl
    · exact msgsOk_append h hte rfl rfl
    · exact msgsOk_mono h (by omega)
  | typeInput now text =>
    simp only [step, Event.time] at *
    exact msgsOk_mono h (Nat.le_succ_of_le hte)
  | switchLanguage now lang =>
    simp only [step, Event.time] at *
    exact msgsOk_mono h (Nat.le_succ_of_le hte)

/-- Running any strictly-clock-increasing event sequence preserves the
invariant. -/
theorem foldl_msgsOk : ∀ (evs : List Event) (s : AppState) (t : Nat),
    msgsOk s.messages t →
    List.Chain' (· < ·) (evs.map Event.time) →
    (∀ e ∈ evs.head?, t ≤ Event.time e) →
    ∃ t', msgsOk (evs.foldl step s).messages t' := by
  intro evs
  induction evs with
  | nil => intro s t h _ _; exact ⟨t, h⟩
  | cons e rest ih =>
    intro s t h hc hh
    simp only [List.map_cons] at hc
    rw [List.chain'_cons'] at hc
    have hte : t ≤ Event.time e := hh e rfl
    have h1 := step_msgsOk h hte
    refine ih (step s e) (Event.time e + 1) h1 hc.2 ?_
    intro x hx
    have hx' : Event.time x ∈ (rest.map Event.time).head? := by
      rw [List.head?_map]
      simp only [Option.mem_def] at hx ⊢
      rw [hx]
      rfl
    exact Nat.succ_le_of_lt (hc.1 _ hx')

/-! ### The claims -/

/-- C1: for every input whose trimmed form is non-empty (and no response
already in flight), a single `handleSendMessage` call appends exactly one
user message to the store immediately, and its resumption appends exactly
one assistant message — the `generateResponse` result — after it; the
previous store is preserved unreordered and untruncated as a prefix both
times. -/
theorem submit_appends_user_then_assistant (s : AppState) (tu tr : Nat)
    (hne : jsTrim s.inputValue ≠ "") (hp : s.pending = []) :
    (handleSendMessageSync s tu).messages
        = s.messages ++ [userMessageOf s.inputValue tu] ∧
    (handleSendMessageResume (handleSendMessageSync s tu) tr).messages
        = s.messages ++ [userMessageOf s.inputValue tu,
            generateResponse s.inputValue s.language s.userLocation tr] := by
  have h1 : handleSendMessageSync s tu = { s with
      messages := s.messages ++ [userMessageOf s.inputValue tu]
      inputValue := ""
      isProcessing := true
      pending := s.pending ++ [⟨s.inputValue, s.language, s.userLocation⟩] } := by
    unfold handleSendMessageSync
    rw [if_neg hne]
  rw [h1, hp]
  constructor
  · rfl
  · unfold handleSendMessageResume
    simp [List.append_assoc]

/-- C1 witness: a concrete submission from the mount state. -/
theorem submit_appends_user_then_assistant_witness :
    (handleSendMessageSync { initialState with inputValue := "water quality" } 3).messages
        = initialState.messages ++ [userMessageOf "water quality" 3] ∧
    (handleSendMessageResume
        (handleSendMessageSync { initialState with inputValue := "water quality" } 3)
        1003).messages
        = initialState.messages ++ [userMessageOf "water quality" 3,
            generateResponse "water quality" Language.en none 1003] :=
  submit_appends_user_then_assistant
    { initialState with inputValue := "water quality" } 3 1003 (by decide) rfl

/-- C2 counterexample: while a response is pending (`isProcessing = true`,
after a first submission) a suggestion-chip click refills the input; invoking
`handleSendMessage` in that state appends a second user message (store
length 1 → 2) and queues a second `generateResponse` call, so it is not a
no-op. -/
theorem submit_ignores_processing_flag :
    (runEvents [Event.typeInput 0 "q1", Event.submit 1,
        Event.typeInput 2 "hello"]).isProcessing = true ∧
    (runEvents [Event.typeInput 0 "q1", Event.submit 1,
        Event.typeInput 2 "hello"]).messages.length = 1 ∧
    (runEvents [Event.typeInput 0 "q1", Event.submit 1, Event.typeInput 2 "hello",
        Event.submit 3]).messages.length = 2 ∧
    (runEvents [Event.typeInput 0 "q1", Event.submit 1, Event.typeInput 2 "hello",
        Event.submit 3]).pending.length = 2 := by
  decide

/-- C2 amended: `handleSendMessage` itself never consults the processing
flag; it is a no-op exactly when the trimmed input is empty, and with a
non-empty trimmed input it always appends a user message and queues a
response, whatever `isProcessing` is.  (Re-entrancy while a response is
pending is prevented only at the UI level, which disables send/enter and
clears the input at submission.) -/
theorem submit_noop_iff_trimmed_empty (s : AppState) (now : Nat) :
    (jsTrim s.inputValue = "" → handleSendMessageSync s now = s) ∧
    (jsTrim s.inputValue ≠ "" →
      (handleSendMessageSync s now).messages
          = s.messages ++ [userMessageOf s.inputValue now] ∧
      (handleSendMessageSync s now).pending
          = s.pending ++ [⟨s.inputValue, s.language, s.userLocation⟩]) := by
  constructor
  · intro h
    unfold handleSendMessageSync
    rw [if_pos h]
  · intro h
    unfold handleSendMessageSync
    rw [if_neg h]
    exact ⟨rfl, rfl⟩

/-- C2 amended witness: blank input is a no-op even while processing. -/
theorem submit_noop_iff_trimmed_empty_witness :
    handleSendMessageSync { initialState with inputValue := "   ", isProcessing := true } 5
        = { initialState with inputValue := "   ", isProcessing := true } :=
  (submit_noop_iff_trimmed_empty
    { initialState with inputValue := "   ", isProcessing := true } 5).1 (by decide)

/-- C3: the keyword chain of `generateResponse` is first-match-wins in the
order quality, compare, predict, level; any text containing a quality
keyword and a comparison keyword gets the quality-intent flags: chart
flag true, comparison flag false. -/
theorem quality_beats_compare (text : String) (lang : Language)
    (loc : Option LocationData) (now : Nat)
    (hq : strIncludes (jsToLower text) "quality" = true ∨
      strIncludes (jsToLower text) "गुणवत्ता" = true)
    (_hc : strIncludes (jsToLower text) "compare" = true ∨
      strIncludes (jsToLower text) "तुलना" = true) :
    (generateResponse text lang loc now).showChart = true ∧
    (generateResponse text lang loc now).showComparison = false := by
  have h1 : (strIncludes (jsToLower text) "quality"
      || strIncludes (jsToLower text) "गुणवत्ता") = true := by
    rcases hq with h | h <;> simp [h]
  unfold generateResponse
  rw [if_pos h1]
  exact ⟨rfl, rfl⟩

/-- C3 witness: a text with both keywords resolves to the quality intent. -/
theorem quality_beats_compare_witness :
    (generateResponse "Compare water quality" Language.en none 9).showChart = true ∧
    (generateResponse "Compare water quality" Language.en none 9).showComparison = false :=
  quality_beats_compare "Compare water quality" Language.en none 9
    (Or.inl (by decide)) (Or.inl (by decide))

/-- C4: the intent-to-shape mapping of `generateResponse`: quality → chart
flag true, comparison flag false, no prediction payload; comparison →
comparison flag true, chart flag false; prediction → chart flag true and
payload marked as prediction; level → chart flag true; no keyword → the
default help message with no chart, no comparison and the default
suggestion set; and every branch carries exactly three suggestion chips. -/
theorem generateResponse_intent_shapes (text : String) (lang : Language)
    (loc : Option LocationData) (now : Nat) :
    (classifyIntent text = Intent.quality →
      (generateResponse text lang loc now).showChart = true ∧
      (generateResponse text lang loc now).showComparison = false ∧
      (generateResponse text lang loc now).data = none) ∧
    (classifyIntent text = Intent.comparison →
      (generateResponse text lang loc now).showComparison = true ∧
      (generateResponse text lang loc now).showChart = false) ∧
    (classifyIntent text = Intent.prediction →
      (generateResponse text lang loc now).showChart = true ∧
      (generateResponse text lang loc now).data = some { isPrediction := true }) ∧
    (classifyIntent text = Intent.level →
      (generateResponse text lang loc now).showChart = true) ∧
    (classifyIntent text = Intent.helpDefault →
      (generateResponse text lang loc now).showChart = false ∧
      (generateResponse text lang loc now).showComparison = false ∧
      (generateResponse text lang loc now).data = none ∧
      (generateResponse text lang loc now).text
        = (if lang = Language.hi then
            "मैं आपकी मदद करने के लिए यहाँ हूँ। कृपया भूजल गुणवत्ता, तुलना या भविष्यवाणी के बारे में पूछें।"
          else
            "I\x27m here to help you with groundwater information. Please ask about water quality, comparisons, or predictions.") ∧
      (generateResponse text lang loc now).suggestions
        = some (if lang = Language.hi then
            ["पानी की गुणवत्ता जांचें", "शहरों की तुलना", "भविष्य की रिपोर्ट"]
          else
            ["Check water quality", "Compare cities", "Future reports"])) ∧
    (∃ cs, (generateResponse text lang loc now).suggestions = some cs ∧
      cs.length = 3) := by
  unfold generateResponse classifyIntent
  split_ifs with h1 h2 h3 h4 <;>
    refine ⟨fun hcl => ?_, fun hcl => ?_, fun hcl => ?_, fun hcl => ?_,
      fun hcl => ?_, ?_⟩ <;>
    first
      | exact absurd hcl (by decide)
      | exact ⟨rfl, rfl, rfl⟩
      | exact ⟨rfl, rfl⟩
      | exact rfl
      | exact ⟨rfl, rfl, rfl, rfl, rfl⟩
      | exact ⟨_, rfl, by cases lang <;> rfl⟩

/-- C4 witness: the three sample queries of the spec and a no-keyword
input. -/
theorem generateResponse_intent_shapes_witness :
    ((generateResponse "Show groundwater quality in Delhi" Language.en none 0).showChart
        = true ∧
      (generateResponse "Show groundwater quality in Delhi" Language.en none 0).showComparison
        = false ∧
      (generateResponse "Show groundwater quality in Delhi" Language.en none 0).data
        = none) ∧
    ((generateResponse "Compare water levels between Mumbai and Pune" Language.en none
        0).showComparison = true ∧
      (generateResponse "Compare water levels between Mumbai and Pune" Language.en none
        0).showChart = false) ∧
    ((generateResponse "Predict water levels for next 5 years in Bangalore" Language.en none
        0).showChart = true ∧
      (generateResponse "Predict water levels for next 5 years in Bangalore" Language.en none
        0).data = some { isPrediction := true }) ∧
    ((generateResponse "hello" Language.en none 0).showChart = false ∧
      (generateResponse "hello" Language.en none 0).showComparison = false ∧
      (generateResponse "hello" Language.en none 0).data = none ∧
      (generateResponse "hello" Language.en none 0).text
        = (if Language.en = Language.hi then
            "मैं आपकी मदद करने के लिए यहाँ हूँ। कृपया भूजल गुणवत्ता, तुलना या भविष्यवाणी के बारे में पूछें।"
          else
            "I\x27m here to help you with groundwater information. Please ask about water quality, comparisons, or predictions.") ∧
      (generateResponse "hello" Language.en none 0).suggestions
        = some (if Language.en = Language.hi then
            ["पानी की गुणवत्ता जांचें", "शहरों की तुलना", "भविष्य की रिपोर्ट"]
          else
            ["Check water quality", "Compare cities", "Future reports"])) :=
  ⟨(generateResponse_intent_shapes "Show groundwater quality in Delhi" Language.en none 0).1
      (by decide),
    (generateResponse_intent_shapes "Compare water levels between Mumbai and Pune"
      Language.en none 0).2.1 (by decide),
    (generateResponse_intent_shapes "Predict water levels for next 5 years in Bangalore"
      Language.en none 0).2.2.1 (by decide),
    (generateResponse_intent_shapes "hello" Language.en none 0).2.2.2.2.1 (by decide)⟩

/-- C5 counterexample: when the platform has no geolocation capability the
code only sets `locationPermission` to denied and returns — the store gets
no fallback message at all, not "exactly one". -/
theorem geo_unavailable_pushes_no_message :
    (requestLocationPermission initialState GeoOutcome.unavailable 3).locationPermission
        = PermissionState.denied ∧
    (requestLocationPermission initialState GeoOutcome.unavailable 3).messages.length
        = 0 :=
  ⟨rfl, rfl⟩

/-- C5 amended: the geolocation outcomes are exhaustive and exclusive: the
success callback stores the coordinates, grants permission and replaces the
store with exactly one greeting message carrying three suggestions; the
error callback (denial or platform error) sets permission denied and
replaces the store with exactly one fallback message carrying three
different suggestions; the capability-absent path sets permission denied
and pushes no message; from the mount state no outcome ever leaves both a
greeting and a fallback — the store holds at most one message. -/
theorem geolocation_outcomes (s : AppState) (now : Nat) (lat lon : Int) :
    (requestLocationPermission s (GeoOutcome.success lat lon) now
        = { s with userLocation := some { latitude := lat, longitude := lon },
                   locationPermission := PermissionState.granted,
                   messages := [welcomeMessage s.language now] }) ∧
    (∃ cs, (welcomeMessage s.language now).suggestions = some cs ∧ cs.length = 3) ∧
    (requestLocationPermission s GeoOutcome.failure now
        = { s with locationPermission := PermissionState.denied,
                   messages := [geoFallbackMessage s.language now] }) ∧
    (∃ cs, (geoFallbackMessage s.language now).suggestions = some cs ∧
      cs.length = 3) ∧
    ((welcomeMessage s.language now).suggestions
        ≠ (geoFallbackMessage s.language now).suggestions) ∧
    (requestLocationPermission s GeoOutcome.unavailable now
        = { s with locationPermission := PermissionState.denied }) ∧
    (∀ o, (requestLocationPermission initialState o now).messages.length ≤ 1) := by
  refine ⟨rfl, ⟨_, rfl, by cases s.language <;> rfl⟩, rfl,
    ⟨_, rfl, by cases s.language <;> rfl⟩, ?_, rfl, ?_⟩
  · cases hl : s.language <;> simp [welcomeMessage, geoFallbackMessage]
  · intro o
    cases o <;> simp [requestLocationPermission, initialState]

/-- C6: the speech-recognition `onerror` handler always leaves the
listening flag false, whatever it was, and appends exactly one localized
assistant message whose text is selected by the error kind: permission
guidance for `not-allowed`, a nothing-heard message for `no-speech`, and a
generic failure message otherwise. -/
theorem onSpeechError_spec (s : AppState) (error : String) (now : Nat) :
    (onSpeechError s error now).isListening = false ∧
    (onSpeechError s error now).messages = s.messages ++
      [{ id := natToString now
         text := speechErrorText s.language error
         isUser := false
         timestamp := now }] ∧
    (error = "not-allowed" → speechErrorText s.language error
        = (if s.language = Language.hi then "माइक्रोफोन की अनुमति दें"
          else "Please allow microphone access")) ∧
    (error = "no-speech" → speechErrorText s.language error
        = (if s.language = Language.hi then "कोई आवाज नहीं सुनी गई"
          else "No speech detected")) ∧
    (error ≠ "not-allowed" → error ≠ "no-speech" → speechErrorText s.language error
        = (if s.language = Language.hi then "वॉइस रिकॉग्निशन में समस्या"
          else "Voice recognition error")) := by
  refine ⟨rfl, rfl, ?_, ?_, ?_⟩
  · intro h
    unfold speechErrorText
    rw [if_pos h]
  · intro h
    unfold speechErrorText
    rw [if_neg (by rw [h]; decide), if_pos h]
  · intro h1 h2
    unfold speechErrorText
    rw [if_neg h1, if_neg h2]

/-- C6 witness: a `no-speech` error while listening. -/
theorem onSpeechError_spec_witness :
    (onSpeechError { initialState with isListening := true } "no-speech" 4).isListening
        = false ∧
    speechErrorText { initialState with isListening := true }.language "no-speech"
        = (if { initialState with isListening := true }.language = Language.hi then
            "कोई आवाज नहीं सुनी गई" else "No speech detected") :=
  ⟨(onSpeechError_spec { initialState with isListening := true } "no-speech" 4).1,
    (onSpeechError_spec { initialState with isListening := true } "no-speech" 4).2.2.2.1
      rfl⟩

/-- C7: `startListening` never propagates an exception: with the capability
absent it appends one localized "not available" message and does not start
a session; on an insecure transport away from localhost it appends one
localized "HTTPS required" message and does not start; and when the
underlying start call throws, the exception is swallowed, the listening
flag is reset to false, and one generic localized failure message is
appended. -/
theorem startListening_spec (s : AppState) (env : ListenEnv) (now : Nat) :
    (env.hasRecognition = false →
      startListening s env now
        = ({ s with messages := s.messages
              ++ [micNotAvailableMessage s.language now] }, false)) ∧
    (env.hasRecognition = true → env.protocolIsHttps = false →
      env.hostnameIsLocalhost = false →
      startListening s env now
        = ({ s with messages := s.messages
              ++ [httpsRequiredMessage s.language now] }, false)) ∧
    (env.hasRecognition = true → env.startThrows = true →
      (env.protocolIsHttps = true ∨ env.hostnameIsLocalhost = true) →
      startListening s env now
        = ({ s with isListening := false,
                    messages := s.messages ++ [startFailedMessage s.language now] },
          false)) := by
  refine ⟨?_, ?_, ?_⟩
  · intro h
    unfold startListening
    rw [if_pos (by simp [h])]
  · intro h1 h2 h3
    unfold startListening
    rw [if_neg (by simp [h1]), if_pos (by simp [h2, h3])]
  · intro h1 h2 h3
    unfold startListening
    rw [if_neg (by simp [h1]), if_neg (by rcases h3 with h | h <;> simp [h]),
      if_pos h2]

/-- C7 witness: the capability-absent branch at the mount state. -/
theorem startListening_spec_witness :
    startListening initialState
        { hasRecognition := false, protocolIsHttps := true,
          hostnameIsLocalhost := false, startThrows := false } 1
      = ({ initialState with messages := initialState.messages
            ++ [micNotAvailableMessage initialState.language 1] }, false) :=
  (startListening_spec initialState
    { hasRecognition := false, protocolIsHttps := true,
      hostnameIsLocalhost := false, startThrows := false } 1).1 rfl

/-- C8 counterexample: ids are `Date.now().toString()`, so two messages
created in the same millisecond collide.  Here the geolocation error
callback and a submission both run at millisecond 7: the fallback message
and the user message both get id `"7"`, a reachable store whose ids are not
pairwise distinct. -/
theorem messageIds_can_collide :
    ¬ List.Pairwise (fun a b : Message => a.id ≠ b.id)
      (runEvents [Event.geo 7 GeoOutcome.failure, Event.typeInput 7 "hi",
        Event.submit 7]).messages := by
  intro h
  rw [show (runEvents [Event.geo 7 GeoOutcome.failure, Event.typeInput 7 "hi",
        Event.submit 7]).messages
      = [geoFallbackMessage Language.en 7, userMessageOf "hi" 7] from rfl,
    List.pairwise_cons] at h
  exact h.1 _ (List.mem_singleton.2 rfl) rfl

/-- C8 amended: message ids are the decimal rendering of the creating
millisecond clock of the creating task, so whenever the event-loop tasks of an execution
run at strictly increasing millisecond instants — i.e. no two messages are
created in the same millisecond — the ids in the reachable store are
pairwise distinct, whichever handlers (submission, `generateResponse`
resumption, geolocation callbacks, speech-error handler, `startListening`)
created them. -/
theorem messageIds_pairwise_distinct (evs : List Event)
    (h : List.Chain' (· < ·) (evs.map Event.time)) :
    List.Pairwise (fun a b : Message => a.id ≠ b.id) (runEvents evs).messages := by
  have h0 : msgsOk initialState.messages 0 := by
    constructor
    · intro m hm
      simp [initialState] at hm
    · show List.Pairwise _ ([] : List Message)
      exact List.Pairwise.nil
  obtain ⟨t', h'⟩ := foldl_msgsOk evs initialState 0 h0 h
    (fun e _ => Nat.zero_le _)
  refine List.Pairwise.imp_of_mem ?_ h'.2
  intro a b ha hb hts hid
  exact hts (natToString_injective
    (by rw [← (h'.1 a ha).2, ← (h'.1 b hb).2]; exact hid))

/-- C8 amended witness: a mount, a typed submission and its resolution at
distinct instants. -/
theorem messageIds_pairwise_distinct_witness :
    List.Pairwise (fun a b : Message => a.id ≠ b.id)
      (runEvents [Event.geo 5 GeoOutcome.failure, Event.typeInput 6 "water level",
        Event.submit 7, Event.resolve 1007]).messages :=
  messageIds_pairwise_distinct
    [Event.geo 5 GeoOutcome.failure, Event.typeInput 6 "water level",
      Event.submit 7, Event.resolve 1007]
    (by simp [Event.time, List.chain'_cons])

/-- C9 counterexample: a response still in flight across a language switch
resumes with the language captured in its closure.  Submitting under `en`,
switching to `hi`, and letting the response resolve leaves the store with an
assistant message that was created after the switch yet carries the English
default text, not the Hindi one. -/
theorem inflight_response_uses_old_language :
    (runEvents [Event.typeInput 0 "hello", Event.submit 1,
        Event.switchLanguage 2 Language.hi, Event.resolve 1001]).language
      = Language.hi ∧
    (runEvents [Event.typeInput 0 "hello", Event.submit 1,
        Event.switchLanguage 2 Language.hi, Event.resolve 1001]).messages.map
        Message.text
      = ["hello",
          "I\x27m here to help you with groundwater information. Please ask about water quality, comparisons, or predictions."] ∧
    "I\x27m here to help you with groundwater information. Please ask about water quality, comparisons, or predictions."
      ≠ "मैं आपकी मदद करने के लिए यहाँ हूँ। कृपया भूजल गुणवत्ता, तुलना या भविष्यवाणी के बारे में पूछें।" := by
  refine ⟨rfl, rfl, by decide⟩

/-- C9 amended: switching the language tag changes only the language field —
every message already in the store keeps its text, flags and suggestions
untouched — and a submission initiated after the switch produces its
assistant message from the strings of the new language; only a response already
in flight at the switch keeps the language captured at its submission. -/
theorem switchLanguage_frame (s : AppState) (now tu tr : Nat) (l : Language)
    (text : String) :
    (step s (Event.switchLanguage now l) = { s with language := l }) ∧
    (jsTrim text ≠ "" →
      (handleSendMessageResume
        (handleSendMessageSync
          { s with language := l, inputValue := text, pending := [] } tu) tr).messages
        = s.messages ++ [userMessageOf text tu,
            generateResponse text l s.userLocation tr]) := by
  constructor
  · rfl
  · intro h
    have h1 : handleSendMessageSync
        { s with language := l, inputValue := text, pending := [] } tu
        = { s with language := l, inputValue := "", isProcessing := true,
                   messages := s.messages ++ [userMessageOf text tu],
                   pending := [⟨text, l, s.userLocation⟩] } := by
      unfold handleSendMessageSync
      rw [if_neg h]
      rfl
    rw [h1]
    unfold handleSendMessageResume
    simp [List.append_assoc]

/-- C9 amended witness: a post-switch submission under the new language. -/
theorem switchLanguage_frame_witness :
    (step initialState (Event.switchLanguage 2 Language.hi)
      = { initialState with language := Language.hi }) ∧
    (handleSendMessageResume
      (handleSendMessageSync
        { initialState with language := Language.hi, inputValue := "namaste",
                            pending := [] } 3) 1003).messages
      = initialState.messages ++ [userMessageOf "namaste" 3,
          generateResponse "namaste" Language.hi initialState.userLocation 1003] :=
  ⟨(switchLanguage_frame initialState 2 3 1003 Language.hi "namaste").1,
    (switchLanguage_frame initialState 2 3 1003 Language.hi "namaste").2 (by decide)⟩

/-- C10: intent classification is language-blind — every keyword branch
tests both the English and the Hindi keyword — so the chart flag, the
comparison flag and the prediction payload of the `generateResponse` result
are identical under `en` and `hi` for every input text and location state;
only the message text and the suggestion strings may differ. -/
theorem generateResponse_flags_language_independent (text : String)
    (loc : Option LocationData) (now : Nat) :
    (generateResponse text Language.en loc now).showChart
        = (generateResponse text Language.hi loc now).showChart ∧
    (generateResponse text Language.en loc now).showComparison
        = (generateResponse text Language.hi loc now).showComparison ∧
    (generateResponse text Language.en loc now).data
        = (generateResponse text Language.hi loc now).data := by
  unfold generateResponse
  split_ifs <;> exact ⟨rfl, rfl, rfl⟩

end AquaInsight
